import Mathlib

/-!
Verification of the authenticated generation orchestration layer
(`apps/ai-server`): scope checking and credential verification (`auth.py`),
the JSON-schema budget estimator and structured-output retry controller
(`services/text_service.py`), and the remote workflow polling loop
(`services/image_service_comfyui_api.py`), shallowly embedded in Lean.

Conventions of the embedding:
* Python exceptions become `Except String`; a caught-and-converted exception
  becomes an explicit `match` on the `Except` value.
* Database calls and the bcrypt check are passed in as explicit behaviours
  (`DBBehavior`, `checkpw`), since those collaborators live outside this
  repository; a pure in-memory `Store` instantiates them for the
  no-failure case.
* Timestamps are integers (`Int`); `datetime.now()` becomes a `now`
  parameter.  The `fromisoformat` string-to-timestamp conversion is
  absorbed into the `Option Int` representation of `expires_at`.
* Python's `int(x * 1.2)` on an integer `x` is modelled as the exact
  `x * 12 / 10` (floating-point rounding of the literal `1.2` can differ
  from the exact rational only on isolated values of `x`; no claim here
  depends on such a value).
-/

/-! ## auth.py: AuthResult and scope checking -/

/-- `AuthResult` from `auth.py`: identity plus resolved scope list. -/
structure AuthResult where
  user_id : String
  email : String
  scopes : List String
deriving Repr, DecidableEq

/-- `AuthResult.has_scope` from `auth.py` (lines 29-43): exact membership,
then the universal `admin:all` scope, then the single hard-coded
implication `stories:write` → `stories:read`. -/
def AuthResult.has_scope (a : AuthResult) (required_scope : String) : Bool :=
  if a.scopes.contains required_scope then true
  else if a.scopes.contains "admin:all" then true
  else if required_scope == "stories:read" && a.scopes.contains "stories:write" then true
  else false

/-! ## auth.py: credential verification -/

/-- One row of the `api_keys` table as selected by `verify_api_key`
(the `WHERE` clause also reads `key_prefix` and `is_active`). -/
structure ApiKeyRecord where
  id : String
  user_id : String
  key_hash : String
  scopes : Option (List String)
  is_active : Bool
  expires_at : Option Int
  key_prefix : String
deriving Repr, DecidableEq

/-- One row of the `users` table (`name` and `role` are selected but unused
by `verify_api_key`, so they are omitted). -/
structure UserRecord where
  id : String
  email : String
deriving Repr, DecidableEq

/-- The database collaborator of `verify_api_key`, one field per round trip;
each call may raise (`Except.error`).  `connect` covers both failure modes
of `get_db_connection` (unconfigured URL and connection failure), which
both surface as a raised exception. -/
structure DBBehavior where
  connect : Except String Unit
  queryKeys : String → Except String (List ApiKeyRecord)
  queryUser : String → Except String (Option UserRecord)
  updateLastUsed : Except String Unit

/-- The body of the `try` block of `verify_api_key` (auth.py lines 84-161),
after the connection has been obtained: prefix query, bcrypt scan in
result order, expiry check on the first hash match, user lookup, and the
fire-and-forget `last_used_at` update whose own failure is swallowed by an
inner `try`.  Any raised database error propagates as `Except.error`. -/
def verify_body (b : DBBehavior) (checkpw : String → String → Bool)
    (now : Int) (api_key : String) : Except String (Option AuthResult) :=
  match b.queryKeys (api_key.take 16) with
  | Except.error e => Except.error e
  | Except.ok api_key_records =>
    if api_key_records.isEmpty then Except.ok none
    else
      match api_key_records.find? (fun r => checkpw api_key r.key_hash) with
      | none => Except.ok none
      | some matched_key =>
        if (match matched_key.expires_at with
            | some t => decide (t < now)
            | none => false) then Except.ok none
        else
          match b.queryUser matched_key.user_id with
          | Except.error e => Except.error e
          | Except.ok none => Except.ok none
          | Except.ok (some u) =>
            let _ := b.updateLastUsed
            Except.ok (some { user_id := u.id, email := u.email,
                              scopes := matched_key.scopes.getD [] })

/-- The whole `try` block of `verify_api_key` including connection
acquisition, with exceptions still visible. -/
def verify_core (b : DBBehavior) (checkpw : String → String → Bool)
    (now : Int) (api_key : String) : Except String (Option AuthResult) :=
  match b.connect with
  | Except.error e => Except.error e
  | Except.ok _ => verify_body b checkpw now api_key

/-- `verify_api_key` from `auth.py` (lines 65-169).  Returns the visible
result together with two booleans of the connection trace:
whether a connection was opened and whether it was closed.  The length
pre-filter runs before the `try`, so no connection is opened for short
keys; the `except Exception` clause converts every raised error to `None`;
the `finally` clause closes the connection on every exit path on which one
was opened. -/
def verify_api_key (b : DBBehavior) (checkpw : String → String → Bool)
    (now : Int) (api_key : String) : Option AuthResult × Bool × Bool :=
  if api_key.length < 16 then (none, false, false)
  else
    match b.connect with
    | Except.error _ => (none, false, false)
    | Except.ok _ =>
      match verify_body b checkpw now api_key with
      | Except.error _ => (none, true, true)
      | Except.ok r => (r, true, true)

/-- An in-memory credential store: the `api_keys` table (in result order of
the prefix query) and the `users` table. -/
structure Store where
  api_keys : List ApiKeyRecord
  users : List UserRecord
deriving Repr

/-- The failure-free database behaviour of a `Store`: the prefix query
applies the SQL `WHERE key_prefix = %s AND is_active = true LIMIT 10`, the
user query applies `WHERE id = %s LIMIT 1`. -/
def storeBehavior (s : Store) : DBBehavior where
  connect := Except.ok ()
  queryKeys := fun p =>
    Except.ok ((s.api_keys.filter (fun r => r.key_prefix == p && r.is_active)).take 10)
  queryUser := fun uid =>
    Except.ok ((s.users.filter (fun u => u.id == uid)).head?)
  updateLastUsed := Except.ok ()

/-- Reference rule, following the spec's words as amended: verification
succeeds iff the secret is at least 16 characters long and, among the first
10 stored active records whose lookup prefix equals the secret's first 16
characters, the first record whose hash verifies the secret is not expired
(`expires_at` absent or not in the past) and its owner exists in the users
table. -/
def verify_spec (checkpw : String → String → Bool) (now : Int)
    (s : Store) (api_key : String) : Option AuthResult :=
  if api_key.length < 16 then none
  else
    let candidates :=
      (s.api_keys.filter (fun r => r.key_prefix == api_key.take 16 && r.is_active)).take 10
    match candidates.find? (fun r => checkpw api_key r.key_hash) with
    | none => none
    | some m =>
      if (match m.expires_at with
          | some t => decide (t < now)
          | none => false) then none
      else
        match (s.users.filter (fun u => u.id == m.user_id)).head? with
        | none => none
        | some u =>
          some { user_id := u.id, email := u.email, scopes := m.scopes.getD [] }

/-! ## text_service.py: JSON schema analysis and closing-token estimate -/

/-- A JSON value sitting in schema position, restricted to the fields read
by `_analyze_json_schema`: the `type` string, the `properties` mapping (an
association list; `none` means the key is absent), the `items` sub-schema,
and the `oneOf` / `anyOf` / `allOf` alternative lists (an absent key and a
present empty list iterate identically, so both are `[]`).  `leaf` stands
for any non-dict value in schema position. -/
inductive JSchema where
  | leaf : JSchema
  | node : Option String → Option (List (String × JSchema)) → Option JSchema →
      List JSchema → List JSchema → List JSchema → JSchema

/-- The mutable `analysis` dictionary of `_analyze_json_schema`
(`field_list` is only logged and is omitted). -/
structure SchemaAnalysis where
  max_depth : Nat
  total_properties : Nat
  array_fields : Nat
  nested_objects : Nat
deriving Repr, DecidableEq

mutual

/-- `analyze_recursive` from `_analyze_json_schema` (text_service.py lines
221-260): returns the maximum depth reached and threads the accumulated
counters. -/
def analyze_recursive : JSchema → Nat → SchemaAnalysis → Nat × SchemaAnalysis
  | JSchema.leaf, current_depth, acc => (current_depth, acc)
  | JSchema.node _typ props items oneOf anyOf allOf, current_depth, acc =>
    let (m1, a1) :=
      match props with
      | none => (current_depth, acc)
      | some ps =>
        analyzeProps ps current_depth
          { acc with total_properties := acc.total_properties + ps.length }
    let (m2, a2) :=
      match items with
      | none => (m1, a1)
      | some it =>
        let (dep, a2a) := analyze_recursive it (current_depth + 1)
          { a1 with array_fields := a1.array_fields + 1 }
        (max m1 dep, a2a)
    let (m3, a3) := analyzeAlts oneOf current_depth m2 a2
    let (m4, a4) := analyzeAlts anyOf current_depth m3 a3
    analyzeAlts allOf current_depth m4 a4
termination_by structural s _ _ => s

/-- The `for prop_name, prop_schema in props.items()` loop: per property,
count an array-typed dict as an array field, else a dict holding
`properties` as a nested object, then recurse one level deeper. -/
def analyzeProps : List (String × JSchema) → Nat → SchemaAnalysis → Nat × SchemaAnalysis
  | [], current_depth, acc => (current_depth, acc)
  | (_, prop_schema) :: rest, current_depth, acc =>
    let acc0 :=
      match prop_schema with
      | JSchema.node t p _ _ _ _ =>
        if t = some "array" then { acc with array_fields := acc.array_fields + 1 }
        else if p.isSome then { acc with nested_objects := acc.nested_objects + 1 }
        else acc
      | JSchema.leaf => acc
    let (dep, a1) := analyze_recursive prop_schema (current_depth + 1) acc0
    let (dr, a2) := analyzeProps rest current_depth a1
    (max dep dr, a2)
termination_by structural l _ _ => l

/-- The `for key in [oneOf, anyOf, allOf]` loop body: recurse into each
alternative one level deeper, taking the maximum depth seen. -/
def analyzeAlts : List JSchema → Nat → Nat → SchemaAnalysis → Nat × SchemaAnalysis
  | [], _, m, acc => (m, acc)
  | s :: rest, current_depth, m, acc =>
    let (dep, a1) := analyze_recursive s (current_depth + 1) acc
    analyzeAlts rest current_depth (max m dep) a1
termination_by structural l _ _ _ => l

end

/-- `_analyze_json_schema` (text_service.py lines 203-265). -/
def analyze_json_schema (json_schema : JSchema) : SchemaAnalysis :=
  let (m, a) := analyze_recursive json_schema 0
    { max_depth := 0, total_properties := 0, array_fields := 0, nested_objects := 0 }
  { a with max_depth := m }

/-- `_estimate_json_closing_tokens` (text_service.py lines 267-311):
`depth*10 + arrays*5 + nested*3 + 50`, capped at 300. -/
def estimate_json_closing_tokens (json_schema : JSchema) : Nat :=
  let a := analyze_json_schema json_schema
  min (a.max_depth * 10 + a.array_fields * 5 + a.nested_objects * 3 + 50) 300

/-- The empty object schema. -/
def emptySchema : JSchema := JSchema.node none none none [] [] []

/-- Schema of the spec's estimator scenario: one top-level object with a
single array-typed property whose items are objects. -/
def scenarioSchema : JSchema :=
  JSchema.node (some "object")
    (some [("arr", JSchema.node (some "array") none
      (some (JSchema.node (some "object") none none [] [] [])) [] [] [])])
    none [] [] []

/-- A schema one level deeper than `emptySchema` with all counters equal:
a single alternative holding the empty object. -/
def deeperSchema : JSchema := JSchema.node none none none [emptySchema] [] []

/-! ## text_service.py: structured-output retry controller

`generate_structured` (text_service.py lines 313-553).  The inference
engine and the JSON parser are external collaborators, passed in as
functions: `engine n` is the outcome of the `(n+1)`-th engine call of this
request (either a generated text with its token count and finish reason,
or a raised engine-level exception), and `parse` is `json.loads` (success
value or `json.JSONDecodeError` message). -/

/-- Outcome of one engine call: generated text, number of output token
ids, and finish reason — or a raised engine-level exception. -/
inductive EngineOut where
  | success : String → Nat → Option String → EngineOut
  | failure : String → EngineOut
deriving Repr, DecidableEq

/-- The result dictionary of `generate_structured` (the constant
`model` entry is omitted; an absent `error` key is `none`). -/
structure GenResult (α : Type) where
  output : String
  parsed_output : Option α
  tokens_used : Nat
  finish_reason : String
  is_valid : Bool
  retry_count : Nat
  error : Option String
deriving Repr, DecidableEq

/-- The token budget of the attempt numbered `retry_count`
(text_service.py lines 384-386): the effective budget on attempt 0 and
`int(effective_max_tokens * 1.2)` on every retry, modelled exactly. -/
def budgetFor (effective_max_tokens retry_count : Nat) : Nat :=
  if retry_count = 0 then effective_max_tokens else effective_max_tokens * 12 / 10

/-- The `while retry_count <= max_retries` loop of `generate_structured`
(text_service.py lines 381-549).  `remaining` is `max_retries -
retry_count`, the number of retries still allowed; the source's
`retry_count >= max_retries` exhaustion test is `remaining = 0` here
(the loop is entered with `retry_count = 0` and `remaining = max_retries`,
and each retry decrements `remaining` while incrementing `retry_count`).
`calls` accumulates the token budget of every engine call made so far; the
next call is `engine calls.length`.  An engine-level exception aborts the
loop at once (`Except.error`, re-raised by the source's outer `except`). -/
def genLoop {α : Type} (engine : Nat → EngineOut) (parse : String → Except String α)
    (isJson : Bool) (effective_max_tokens : Nat) (remaining retry_count : Nat)
    (calls : List Nat) : Except String (GenResult α) × List Nat :=
  let current_max_tokens := budgetFor effective_max_tokens retry_count
  let calls1 := calls ++ [current_max_tokens]
  match engine calls.length with
  | EngineOut.failure e => (Except.error e, calls1)
  | EngineOut.success generated_text tokens_used finish_reason =>
    if isJson then
      match parse generated_text with
      | Except.ok v =>
        (Except.ok { output := generated_text, parsed_output := some v,
                     tokens_used := tokens_used,
                     finish_reason := finish_reason.getD "unknown",
                     is_valid := true, retry_count := retry_count,
                     error := none }, calls1)
      | Except.error e =>
        match remaining with
        | 0 =>
          (Except.ok { output := generated_text, parsed_output := none,
                       tokens_used := tokens_used,
                       finish_reason := finish_reason.getD "unknown",
                       is_valid := false, retry_count := retry_count,
                       error := some e }, calls1)
        | n + 1 =>
          genLoop engine parse isJson effective_max_tokens n (retry_count + 1) calls1
    else
      (Except.ok { output := generated_text, parsed_output := none,
                   tokens_used := tokens_used,
                   finish_reason := finish_reason.getD "unknown",
                   is_valid := true, retry_count := 0,
                   error := none }, calls1)
termination_by structural remaining

/-- `generate_structured` (text_service.py lines 313-553): effective
budget computation (the schema closing buffer is added only for the
`json` kind with a schema present), guided-decoding configuration
validation (an invalid combination raises `ValueError` before any engine
call), then the retry loop.  Alongside the result it returns the list of
token budgets of the engine calls actually made.  Python's truthiness of
the constraint payloads maps to: a schema is truthy when present (the
degenerate falsy empty-dict schema is not distinguished here), a pattern
or grammar string when nonempty, a choice list when nonempty. -/
def generate_structured {α : Type} (engine : Nat → EngineOut)
    (parse : String → Except String α) (guided_type : String)
    (json_schema : Option JSchema) (regex_pattern : Option String)
    (choices : Option (List String)) (grammar : Option String)
    (max_tokens : Nat) (max_retries : Nat) :
    Except String (GenResult α) × List Nat :=
  let effective_max_tokens :=
    match json_schema with
    | some s =>
      if guided_type == "json" then max_tokens + estimate_json_closing_tokens s
      else max_tokens
    | none => max_tokens
  if guided_type == "json" && json_schema.isSome then
    genLoop engine parse true effective_max_tokens max_retries 0 []
  else if guided_type == "regex" && (regex_pattern.getD "") != "" then
    genLoop engine parse false effective_max_tokens max_retries 0 []
  else if guided_type == "choice" && !(choices.getD []).isEmpty then
    genLoop engine parse false effective_max_tokens max_retries 0 []
  else if guided_type == "grammar" && (grammar.getD "") != "" then
    genLoop engine parse false effective_max_tokens max_retries 0 []
  else
    (Except.error "ValueError: Invalid guided decoding configuration", [])

/-! ## image_service_comfyui_api.py: completion polling -/

/-- Outcome of the polling loop, tagged with the elapsed time (seconds
since `start_time`) at which the loop exited. -/
inductive PollResult where
  | timedOut : Nat → PollResult
  | completed : Nat → PollResult
deriving Repr, DecidableEq

/-- `_wait_for_completion` (image_service_comfyui_api.py lines 273-320),
abstracted to its loop skeleton: each iteration first checks
`time.time() - start_time > timeout` and raises `TimeoutError`, then asks
whether the prompt id is in the backend's history (`history t` at elapsed
time `t`), and otherwise sleeps one poll `interval` (1.0 s in the source,
kept as a parameter).  Time advances by `interval` per iteration — the
history request itself is idealized as instantaneous.  `fuel` bounds the
number of iterations so the function is total; `none` means the fuel ran
out before the loop exited. -/
def wait_for_completion (history : Nat → Bool) (timeout interval : Nat) :
    Nat → Nat → Option PollResult
  | 0, _ => none
  | fuel + 1, t =>
    if timeout < t then some (PollResult.timedOut t)
    else if history t then some (PollResult.completed t)
    else wait_for_completion history timeout interval fuel (t + interval)

/-! ## Concrete instances used by the theorems below -/

/-- A stored credential whose owning user is absent from the users table. -/
def orphanRecord : ApiKeyRecord :=
  { id := "k1", user_id := "u1", key_hash := "0123456789abcdefTAIL",
    scopes := some ["stories:read"], is_active := true, expires_at := none,
    key_prefix := "0123456789abcdef" }

/-- A store holding `orphanRecord` and an empty users table. -/
def orphanStore : Store := { api_keys := [orphanRecord], users := [] }

/-- A hash check for examples: the stored hash is the secret itself. -/
def plainCheckpw : String → String → Bool := fun secret stored => secret == stored

/-- An engine whose every call yields the same truncated text. -/
def alwaysTruncatedEngine : Nat → EngineOut :=
  fun _ => EngineOut.success "x" 7 (some "length")

/-- A parser that rejects every input. -/
def alwaysFailingParse : String → Except String Unit :=
  fun _ => Except.error "Expecting value"

/-- An engine whose every call succeeds with the same output. -/
def stubEngine : Nat → EngineOut := fun _ => EngineOut.success "ok" 3 (some "stop")

/-- A parser that accepts every input, returning it unchanged. -/
def echoParse : String → Except String String := fun s => Except.ok s

/-- An engine whose every call raises an engine-level error. -/
def failingEngine : Nat → EngineOut := fun _ => EngineOut.failure "CUDA error"

/-! ## Theorems -/

/-- Claim C1: `has_scope` returns true iff the required scope is literally a
member of the scope set, or `admin:all` is a member, or the required scope
is `stories:read` and `stories:write` is a member; in every other case it
returns false — in particular, holding only `stories:read` does not
satisfy a required `stories:write`. -/
theorem has_scope_characterization :
    (∀ (a : AuthResult) (required_scope : String),
      a.has_scope required_scope = true ↔
        (required_scope ∈ a.scopes ∨ "admin:all" ∈ a.scopes ∨
          (required_scope = "stories:read" ∧ "stories:write" ∈ a.scopes)))
    ∧ AuthResult.has_scope
        { user_id := "u", email := "e", scopes := ["stories:read"] } "stories:write" = false := by
  constructor
  · intro a r
    simp [AuthResult.has_scope]
  · decide

/-- Claim C2, counterexample: a store contains a credential record whose
prefix matches the secret's first 16 characters, whose hash verifies,
which is active and has no expiry — yet `verify_api_key` returns `none`,
because the record's owning user is missing from the users table.  So
verification success is not equivalent to the existence of such a
record. -/
theorem verify_claim_counterexample :
    (∃ r ∈ orphanStore.api_keys,
        r.key_prefix = ("0123456789abcdefTAIL" : String).take 16 ∧
        plainCheckpw "0123456789abcdefTAIL" r.key_hash = true ∧
        r.is_active = true ∧ r.expires_at = none) ∧
    (verify_api_key (storeBehavior orphanStore) plainCheckpw 0 "0123456789abcdefTAIL").1 = none := by
  constructor
  · decide
  · rfl

/-- Claim C2, amended: over a failure-free store, `verify_api_key` returns
a result exactly according to `verify_spec`: success iff the secret is at
least 16 characters long, and among the first 10 stored active records
whose lookup prefix equals the secret's first 16 characters, the first
record (in store order) whose hash verifies the secret is unexpired
(`expires_at` absent, or not earlier than now) and its owning user record
exists; in every other case — including an expired or orphaned match,
which is answered exactly like an unknown key, and a short secret, which
is rejected before any lookup — it returns `none`. -/
theorem verify_api_key_store_characterization :
    ∀ (checkpw : String → String → Bool) (now : Int) (s : Store) (api_key : String),
      (verify_api_key (storeBehavior s) checkpw now api_key).1 =
        verify_spec checkpw now s api_key := by
  intro cp now s key
  unfold verify_api_key verify_spec verify_body storeBehavior
  by_cases h : key.length < 16
  · simp [h]
  · simp only [h, if_false]
    cases hcs : (s.api_keys.filter
        (fun r => r.key_prefix == key.take 16 && r.is_active)).take 10 with
    | nil => simp
    | cons a l =>
      simp only [List.isEmpty_cons]
      cases hf : (a :: l).find? (fun r => cp key r.key_hash) with
      | none => simp [hf]
      | some m =>
        simp only [hf]
        by_cases hexp : (match m.expires_at with
          | some t => decide (t < now)
          | none => false) = true
        · simp [hexp]
        · simp only [hexp, if_false]
          cases (s.users.filter (fun u => u.id == m.user_id)).head? with
          | none => simp
          | some u => simp

/-- Claim C10: `verify_api_key` is total over internal failures: its
visible result equals `none` for a short secret and otherwise equals the
result of the exception-visible core with every raised error converted to
`none` (so callers observe a rejection, never an exception), and the
connection-opened flag always equals the connection-closed flag. -/
theorem verify_api_key_total :
    ∀ (b : DBBehavior) (checkpw : String → String → Bool) (now : Int) (api_key : String),
      (verify_api_key b checkpw now api_key).1 =
        (if api_key.length < 16 then none
         else (verify_core b checkpw now api_key).toOption.join) ∧
      (verify_api_key b checkpw now api_key).2.1 = (verify_api_key b checkpw now api_key).2.2 := by
  intro b cp now key
  unfold verify_api_key verify_core
  by_cases h : key.length < 16
  · simp [h]
  · simp only [h, if_false]
    cases b.connect with
    | error e => simp [Except.toOption]
    | ok u =>
      cases verify_body b cp now key with
      | error e => simp [Except.toOption]
      | ok r => simp [Except.toOption]

/-- Claim C4, counterexample: on the scenario schema — one top-level
object with a single array-typed property whose items are objects — the
estimator does not return 78: it computes `max_depth = 2`,
`array_fields = 2` (the property is counted once for its `array` type and
once for its `items` key), `nested_objects = 0` (the item object is not a
direct object-typed property), hence 80. -/
theorem estimator_scenario_counterexample :
    estimate_json_closing_tokens scenarioSchema ≠ 78 ∧
    estimate_json_closing_tokens scenarioSchema = 80 ∧
    analyze_json_schema scenarioSchema =
      { max_depth := 2, total_properties := 1, array_fields := 2, nested_objects := 0 } := by
  decide

/-- Claim C4, amended: on the scenario schema the analysis yields
depth 2, array-field count 2 and nested-object count 0, and the estimate
is exactly the formula value `2*10 + 2*5 + 0*3 + 50 = 80`. -/
theorem estimator_scenario_amended :
    estimate_json_closing_tokens scenarioSchema = 80 ∧
    (analyze_json_schema scenarioSchema).max_depth = 2 ∧
    (analyze_json_schema scenarioSchema).array_fields = 2 ∧
    (analyze_json_schema scenarioSchema).nested_objects = 0 ∧
    estimate_json_closing_tokens scenarioSchema =
      (analyze_json_schema scenarioSchema).max_depth * 10 +
      (analyze_json_schema scenarioSchema).array_fields * 5 +
      (analyze_json_schema scenarioSchema).nested_objects * 3 + 50 := by
  decide

/-- Claim C5: for every schema the estimate lies in `[50, 300]`, and the
empty object schema yields exactly the base value 50. -/
theorem estimator_range :
    (∀ s : JSchema, 50 ≤ estimate_json_closing_tokens s ∧ estimate_json_closing_tokens s ≤ 300)
    ∧ estimate_json_closing_tokens emptySchema = 50 := by
  constructor
  · intro s
    unfold estimate_json_closing_tokens
    constructor
    · exact Nat.le_min.mpr ⟨by omega, by omega⟩
    · exact Nat.min_le_right _ _
  · decide

/-- Claim C6: the estimator is monotonic in nesting depth: if one schema's
analysis is exactly one level deeper than another's with all other counts
equal, its estimate is never smaller. -/
theorem estimator_monotone_in_depth :
    ∀ s1 s2 : JSchema,
      (analyze_json_schema s2).max_depth = (analyze_json_schema s1).max_depth + 1 →
      (analyze_json_schema s2).array_fields = (analyze_json_schema s1).array_fields →
      (analyze_json_schema s2).nested_objects = (analyze_json_schema s1).nested_objects →
      (analyze_json_schema s2).total_properties = (analyze_json_schema s1).total_properties →
      estimate_json_closing_tokens s1 ≤ estimate_json_closing_tokens s2 := by
  intro s1 s2 hd ha hn _
  simp only [estimate_json_closing_tokens]
  rw [hd, ha, hn]
  omega

theorem estimator_monotone_in_depth_witness :
    (analyze_json_schema deeperSchema).max_depth = (analyze_json_schema emptySchema).max_depth + 1 ∧
    estimate_json_closing_tokens emptySchema ≤ estimate_json_closing_tokens deeperSchema :=
  ⟨by decide, estimator_monotone_in_depth emptySchema deeperSchema
    (by decide) (by decide) (by decide) (by decide)⟩

/-- Claim C7: `generate_structured` makes exactly one engine call and
reports `retry_count = 0` (a) for every non-schema constraint kind
(`regex`, `choice`, `grammar`), whose output is accepted as-is with
`is_valid = true` regardless of content, and (b) for every schema
(`json`)-constrained request whose first attempt parses, additionally
returning `is_valid = true` with the parsed value.  The returned budget
list records one entry per engine call made. -/
theorem generate_structured_single_call :
    ∀ {α : Type} (engine : Nat → EngineOut) (parse : String → Except String α)
      (text : String) (tokens : Nat) (fin : Option String) (max_tokens max_retries : Nat),
      engine 0 = EngineOut.success text tokens fin →
      ((∀ pat : String, pat ≠ "" →
          generate_structured engine parse "regex" none (some pat) none none max_tokens max_retries =
            (Except.ok { output := text, parsed_output := none, tokens_used := tokens,
                         finish_reason := fin.getD "unknown", is_valid := true,
                         retry_count := 0, error := none }, [max_tokens])) ∧
       (∀ cs : List String, cs ≠ [] →
          generate_structured engine parse "choice" none none (some cs) none max_tokens max_retries =
            (Except.ok { output := text, parsed_output := none, tokens_used := tokens,
                         finish_reason := fin.getD "unknown", is_valid := true,
                         retry_count := 0, error := none }, [max_tokens])) ∧
       (∀ g : String, g ≠ "" →
          generate_structured engine parse "grammar" none none none (some g) max_tokens max_retries =
            (Except.ok { output := text, parsed_output := none, tokens_used := tokens,
                         finish_reason := fin.getD "unknown", is_valid := true,
                         retry_count := 0, error := none }, [max_tokens])) ∧
       (∀ (json_schema : JSchema) (v : α), parse text = Except.ok v →
          generate_structured engine parse "json" (some json_schema) none none none max_tokens max_retries =
            (Except.ok { output := text, parsed_output := some v, tokens_used := tokens,
                         finish_reason := fin.getD "unknown", is_valid := true,
                         retry_count := 0, error := none },
             [max_tokens + estimate_json_closing_tokens json_schema]))) := by
  intro α engine parse text tokens fin mt mr heng
  refine ⟨?_, ?_, ?_, ?_⟩
  · intro pat hp
    rw [generate_structured]
    simp only [show ("regex" == "json") = false from rfl]
    simp [hp, genLoop, heng, budgetFor]
  · intro cs hc
    rw [generate_structured]
    simp [hc, genLoop, heng, budgetFor]
  · intro g hg
    rw [generate_structured]
    simp [hg, genLoop, heng, budgetFor]
  · intro js v hv
    rw [generate_structured]
    simp [genLoop, heng, hv, budgetFor]

theorem generate_structured_single_call_witness :
    generate_structured stubEngine echoParse "choice" none none (some ["a", "b"]) none 32 2 =
      (Except.ok { output := "ok", parsed_output := none, tokens_used := 3,
                   finish_reason := "stop", is_valid := true, retry_count := 0,
                   error := none }, [32]) ∧
    generate_structured stubEngine echoParse "json" (some emptySchema) none none none 32 2 =
      (Except.ok { output := "ok", parsed_output := some "ok", tokens_used := 3,
                   finish_reason := "stop", is_valid := true, retry_count := 0,
                   error := none }, [32 + estimate_json_closing_tokens emptySchema]) := by
  have h := generate_structured_single_call stubEngine echoParse "ok" 3 (some "stop") 32 2 rfl
  exact ⟨h.2.1 ["a", "b"] (by decide), h.2.2.2 emptySchema "ok" rfl⟩

/-- Claim C8: an engine-level exception propagates immediately: whenever
the next engine call of the retry loop raises, the loop returns that
error with no further engine call (the call trace grows by exactly that
one call); in particular a `json`-constrained request whose first call
raises makes exactly one call and propagates the error. -/
theorem engine_failure_propagates :
    ∀ {α : Type} (engine : Nat → EngineOut) (parse : String → Except String α) (e : String),
      (∀ (isJson : Bool) (effective_max_tokens remaining retry_count : Nat) (calls : List Nat),
          engine calls.length = EngineOut.failure e →
          genLoop engine parse isJson effective_max_tokens remaining retry_count calls =
            (Except.error e, calls ++ [budgetFor effective_max_tokens retry_count])) ∧
      (engine 0 = EngineOut.failure e →
        ∀ (json_schema : JSchema) (max_tokens max_retries : Nat),
          generate_structured engine parse "json" (some json_schema) none none none
              max_tokens max_retries =
            (Except.error e, [max_tokens + estimate_json_closing_tokens json_schema])) := by
  intro α engine parse e
  have main : ∀ (isJson : Bool) (E remaining rc : Nat) (calls : List Nat),
      engine calls.length = EngineOut.failure e →
      genLoop engine parse isJson E remaining rc calls =
        (Except.error e, calls ++ [budgetFor E rc]) := by
    intro isJson E remaining rc calls h
    rw [genLoop]
    simp [h]
  refine ⟨main, ?_⟩
  intro h js mt mr
  rw [generate_structured]
  simp only [Option.isSome_some, Bool.and_true]
  rw [show (("json" : String) == "json") = true from rfl]
  simp only [if_true]
  rw [main true (mt + estimate_json_closing_tokens js) mr 0 [] (by simpa using h)]
  simp [budgetFor]

theorem engine_failure_propagates_witness :
    genLoop failingEngine echoParse true 100 2 0 [] = (Except.error "CUDA error", [100]) ∧
    generate_structured failingEngine echoParse "json" (some emptySchema) none none none 100 2 =
      (Except.error "CUDA error", [100 + estimate_json_closing_tokens emptySchema]) := by
  have h := engine_failure_propagates failingEngine echoParse "CUDA error"
  exact ⟨h.1 true 100 2 0 [] rfl, h.2 rfl emptySchema 100 2⟩

/-- Claim C3: with every attempt failing to parse and `max_retries = 2`,
the controller makes 3 calls and returns `is_valid = false` with the last
raw output and the recorded parse error, but the call budgets are
`[150, 180, 180]`: every retry uses `int(effective * 1.2)` of the original
effective budget, so the third call's budget is not strictly larger than
the second's (the source computes a grown `new_max_tokens` on each retry
and never feeds it back into the next attempt). -/
theorem retry_budgets_not_strictly_increasing :
    generate_structured alwaysTruncatedEngine alwaysFailingParse "json" (some emptySchema)
        none none none 100 2 =
      (Except.ok { output := "x", parsed_output := none, tokens_used := 7,
                   finish_reason := "length", is_valid := false, retry_count := 2,
                   error := some "Expecting value" }, [150, 180, 180]) ∧
    ¬ List.Chain' (fun a b => a < b) [150, 180, 180] := by
  refine ⟨rfl, ?_⟩
  simp [List.chain'_cons]

theorem wait_never_sound :
    ∀ (history : Nat → Bool) (timeout interval : Nat), (∀ u, history u = false) →
      ∀ (fuel : Nat) (t : Nat) (r : PollResult),
        wait_for_completion history timeout interval fuel t = some r →
        t ≤ timeout + interval →
        ∃ e, r = PollResult.timedOut e ∧ timeout < e ∧ e ≤ timeout + interval := by
  intro history timeout interval hh fuel
  induction fuel with
  | zero => intro t r h; simp [wait_for_completion] at h
  | succ n ih =>
    intro t r h hb
    rw [wait_for_completion] at h
    by_cases hto : timeout < t
    · simp only [hto, if_true] at h
      exact ⟨t, (Option.some_inj.mp h).symm, hto, hb⟩
    · simp only [hto, if_false, hh t] at h
      exact ih (t + interval) r h (by omega)

theorem wait_never_terminates :
    ∀ (history : Nat → Bool) (timeout interval : Nat),
      (∀ u, history u = false) → 1 ≤ interval →
      ∀ (fuel : Nat) (t : Nat), 1 ≤ fuel → timeout + 2 ≤ t + fuel →
        ∃ r, wait_for_completion history timeout interval fuel t = some r := by
  intro history timeout interval hh hi fuel
  induction fuel with
  | zero => intro t h1 _; omega
  | succ n ih =>
    intro t _ hb
    rw [wait_for_completion]
    by_cases hto : timeout < t
    · exact ⟨PollResult.timedOut t, by simp [hto]⟩
    · obtain ⟨r, hr⟩ := ih (t + interval) (by omega) (by omega)
      exact ⟨r, by simp [hto, hh t, hr]⟩

/-- Claim C9: for a job that never appears in the history, the polling
loop raises its timeout failure at an elapsed time no earlier than the
deadline and no later than the deadline plus one poll interval (time
advancing by one interval per iteration). -/
theorem poll_timeout_window :
    ∀ (history : Nat → Bool) (timeout interval : Nat),
      (∀ t, history t = false) → 1 ≤ interval →
      ∃ e, wait_for_completion history timeout interval (timeout + 2) 0 =
             some (PollResult.timedOut e) ∧ timeout ≤ e ∧ e ≤ timeout + interval := by
  intro history timeout interval hh hi
  obtain ⟨r, hr⟩ :=
    wait_never_terminates history timeout interval hh hi (timeout + 2) 0 (by omega) (by omega)
  obtain ⟨e, he, h1, h2⟩ :=
    wait_never_sound history timeout interval hh (timeout + 2) 0 r hr (by omega)
  exact ⟨e, he ▸ hr, by omega, h2⟩

theorem poll_timeout_window_witness :
    ∃ e, wait_for_completion (fun _ => false) 5 1 7 0 = some (PollResult.timedOut e) ∧
      5 ≤ e ∧ e ≤ 5 + 1 :=
  poll_timeout_window (fun _ => false) 5 1 (fun _ => rfl) (by decide)
